import Mathlib

/-!
Verification of the product-catalog CRUD service: a shallow embedding of
`service/routes.py` together with the Product model it calls, and proofs of
the behavioural properties stated in the specification.

The route handlers are translated directly from `service/routes.py`.  The
Product model (`service/models.py`) is not part of the provided sources, so
its operations are modelled from the specification text (sections 3, 4.1, 7
and 8 of the spec); each such definition is marked `Modelled from the spec`.
-/

namespace ProductService

/-- Modelled from the spec: `service/models.py` is missing from the sources.
Spec section 3: "category (enumerated value from a fixed closed set, e.g.
UNKNOWN/CLOTHS/...)".  The member set is taken from the names appearing in
the spec and the tests (`Category.CLOTHS` in `test_models.py`); `SPORTS` is
not a member (`test_deserialize_product_invalid_category`). -/
inductive Category where
  | UNKNOWN
  | CLOTHS
  | FOOD
  | HOUSEWARES
  | AUTOMOTIVE
  | TOOLS
  deriving DecidableEq

/-- The symbolic name of a category member, as emitted on output
(spec section 3: "always emitted as its name string on output"). -/
def Category.nameOf : Category → String
  | .UNKNOWN => "UNKNOWN"
  | .CLOTHS => "CLOTHS"
  | .FOOD => "FOOD"
  | .HOUSEWARES => "HOUSEWARES"
  | .AUTOMOTIVE => "AUTOMOTIVE"
  | .TOOLS => "TOOLS"

/-- The integer ordinal of a category member (Python `Category(int)` lookup
by value). -/
def Category.ordinal : Category → Int
  | .UNKNOWN => 0
  | .CLOTHS => 1
  | .FOOD => 2
  | .HOUSEWARES => 3
  | .AUTOMOTIVE => 4
  | .TOOLS => 5

/-- Resolving a category by its exact member name: Python `Category[name]`
(raises `KeyError`, here `none`, when the name is unknown). -/
def categoryFromName : String → Option Category
  | "UNKNOWN" => some .UNKNOWN
  | "CLOTHS" => some .CLOTHS
  | "FOOD" => some .FOOD
  | "HOUSEWARES" => some .HOUSEWARES
  | "AUTOMOTIVE" => some .AUTOMOTIVE
  | "TOOLS" => some .TOOLS
  | _ => none

/-- Resolving a category by its integer ordinal: Python `Category(value)`
(raises `ValueError`, here `none`, when no member has that value). -/
def categoryFromOrdinal : Int → Option Category
  | 0 => some .UNKNOWN
  | 1 => some .CLOTHS
  | 2 => some .FOOD
  | 3 => some .HOUSEWARES
  | 4 => some .AUTOMOTIVE
  | 5 => some .TOOLS
  | _ => none

/-- JSON-like values, the payloads exchanged by the service.  Numbers are
modelled as rationals, which faithfully represent the decimal literals the
service deals in. -/
inductive JVal where
  | jnull
  | jbool (b : Bool)
  | jnum (q : ℚ)
  | jstr (s : String)
  | jarr (xs : List JVal)
  | jobj (fields : List (String × JVal))

/-- Field lookup in a JSON object body (Python `data[key]`; `none` models the
`KeyError` on an absent key). -/
def jlookup (fields : List (String × JVal)) (key : String) : Option JVal :=
  (fields.find? (fun kv => kv.1 = key)).map (·.2)

/-- Parse a (nonempty) list of decimal digit characters. -/
def digitsToNat? (cs : List Char) : Option Nat :=
  if cs.isEmpty then none
  else cs.foldlM (fun acc c => if c.isDigit then some (acc * 10 + (c.toNat - 48)) else none) 0

/-- Python `int(s)` on a string: optional surrounding spaces, optional sign,
then decimal digits; anything else raises `ValueError`, here `none`. -/
def pyInt? (s : String) : Option Int :=
  let cs := (s.data.dropWhile (· = ' ')).reverse.dropWhile (· = ' ') |>.reverse
  match cs with
  | '-' :: rest => (digitsToNat? rest).map (fun n => -(n : Int))
  | '+' :: rest => (digitsToNat? rest).map (fun n => (n : Int))
  | _ => (digitsToNat? cs).map (fun n => (n : Int))

/-- Python `Decimal(s)` on a string: optional sign, an integer part and an
optional fractional part, at least one digit overall; anything else raises,
here `none`.  Used where the model coerces a numeric string before a price
comparison (spec section 4.1, `find_by_price`). -/
def parseDecimal (s : String) : Option ℚ :=
  let core : List Char → Option ℚ := fun cs =>
    match cs.splitOn '.' with
    | [intPart] => (digitsToNat? intPart).map (fun n => (n : ℚ))
    | [intPart, fracPart] =>
        if intPart.isEmpty ∧ fracPart.isEmpty then none
        else
          let ip : Option Nat := if intPart.isEmpty then some 0 else digitsToNat? intPart
          let fp : Option Nat := if fracPart.isEmpty then some 0 else digitsToNat? fracPart
          match ip, fp with
          | some i, some f => some ((i : ℚ) + (f : ℚ) / ((10 : ℚ) ^ fracPart.length))
          | _, _ => none
    | _ => none
  match s.data with
  | '-' :: rest => (core rest).map (fun q => -q)
  | '+' :: rest => core rest
  | cs => core cs

/-- Python `str.upper()` (used on the category query parameter,
`routes.py` line 114), as a character-wise map. -/
def pyUpper (s : String) : String :=
  ⟨s.data.map Char.toUpper⟩

/-- The persisted entity (spec section 3): id is `none` before first
persistence and `some` after; price is a decimal number, modelled as ℚ. -/
structure Product where
  id : Option Nat
  name : String
  description : String
  price : ℚ
  available : Bool
  category : Category
  deriving DecidableEq

/-- A freshly constructed, unpersisted product (Python `Product()`), before
`deserialize` populates it. -/
def Product.new : Product :=
  { id := none, name := "", description := "", price := 0
    available := false, category := .UNKNOWN }

/-- The database table of products together with the store's id counter.
Spec section 3: "the database is the single source of truth". -/
structure DB where
  rows : List Product
  nextId : Nat
  deriving DecidableEq

/-- Modelled from the spec: `service/models.py` is missing from the sources.
`serialize()` "produces a mapping {id, name, description, price, available,
category-name-string}" (spec section 4.1); category is "always emitted as
its name string on output" (section 3). -/
def Product.serialize (p : Product) : JVal :=
  .jobj [("id", match p.id with | none => .jnull | some i => .jnum (i : ℚ)),
         ("name", .jstr p.name),
         ("description", .jstr p.description),
         ("price", .jnum p.price),
         ("available", .jbool p.available),
         ("category", .jstr (Category.nameOf p.category))]

/-- Modelled from the spec: `service/models.py` is missing from the sources.
`deserialize(data)` "populates fields from a mapping; fails with a validation
error if: name missing/wrong type (must be string), available not of boolean
type, category not a resolvable enum name, price not convertible to the
numeric type, or any required key absent — with a distinct message per
failure mode" (spec section 4.1).  `description` is optional (section 3) and
keeps its previous value when absent.  The id field is never touched. -/
def Product.deserialize (p : Product) (body : JVal) : Except String Product := do
  match body with
  | .jobj fields =>
      let name ← match jlookup fields "name" with
        | some (.jstr s) => Except.ok s
        | some _ => Except.error "Invalid type for string [name]"
        | none => Except.error "Invalid product: missing name"
      let description := match jlookup fields "description" with
        | some (.jstr s) => s
        | _ => p.description
      let available ← match jlookup fields "available" with
        | some (.jbool b) => Except.ok b
        | some _ => Except.error "Invalid type for boolean [available]"
        | none => Except.error "Invalid product: missing available"
      let category ← match jlookup fields "category" with
        | some (.jstr s) =>
            match categoryFromName s with
            | some c => Except.ok c
            | none => Except.error ("Invalid attribute: " ++ s)
        | some _ => Except.error "Invalid type for string [category]"
        | none => Except.error "Invalid product: missing category"
      let price ← match jlookup fields "price" with
        | some (.jnum q) => Except.ok q
        | some (.jstr s) =>
            match parseDecimal s with
            | some q => Except.ok q
            | none => Except.error "Invalid type for numeric [price]"
        | some _ => Except.error "Invalid type for numeric [price]"
        | none => Except.error "Invalid product: missing price"
      Except.ok { p with name := name, description := description,
                         price := price, available := available,
                         category := category }
  | _ => Except.error "Invalid product: body of request contained bad or no data"

/-- Modelled from the spec: `service/models.py` is missing from the sources.
`create()` "inserts a new row; assigns id on success; no pre-existing id
required (any existing id is overwritten by the store's assignment)"
(spec section 4.1). -/
def Product.create (db : DB) (p : Product) : DB × Product :=
  let p' := { p with id := some db.nextId }
  ({ rows := db.rows ++ [p'], nextId := db.nextId + 1 }, p')

/-- The validation-error message raised by `update()` on a product without
an id. -/
def updateNoIdMsg : String := "Update called with empty ID field"

/-- Modelled from the spec: `service/models.py` is missing from the sources.
`update()` "persists current field values to the row matching id; fails with
a validation error if id is None (nothing to update)" (spec section 4.1);
the failed call "performs no persistence" (section 8), so the table is
returned unchanged alongside the error. -/
def Product.update (db : DB) (p : Product) : DB × Except String Unit :=
  match p.id with
  | none => (db, .error updateNoIdMsg)
  | some i =>
      ({ db with rows := db.rows.map (fun r => if r.id = some i then p else r) },
       .ok ())

/-- Modelled from the spec: `service/models.py` is missing from the sources.
`delete()` "removes the row matching id" (spec section 4.1). -/
def Product.delete (db : DB) (p : Product) : DB :=
  { db with rows := db.rows.filter (fun r => r.id ≠ p.id) }

/-- Modelled from the spec: `service/models.py` is missing from the sources.
`find(id)` "returns the matching instance or a not-found sentinel (no
exception)" (spec section 4.1). -/
def Product.find (db : DB) (pid : Nat) : Option Product :=
  db.rows.find? (fun r => r.id = some pid)

/-- Modelled from the spec: `service/models.py` is missing from the sources.
`find_by_name(name)`: "exact string match" (spec section 4.1). -/
def Product.find_by_name (db : DB) (name : String) : List Product :=
  db.rows.filter (fun r => r.name = name)

/-- Modelled from the spec: `service/models.py` is missing from the sources.
`find_by_category(category)`: "exact enum match" (spec section 4.1). -/
def Product.find_by_category (db : DB) (c : Category) : List Product :=
  db.rows.filter (fun r => r.category = c)

/-- Modelled from the spec: `service/models.py` is missing from the sources.
`find_by_availability(available)`: "exact boolean match" (spec section 4.1). -/
def Product.find_by_availability (db : DB) (b : Bool) : List Product :=
  db.rows.filter (fun r => r.available = b)

/-- The price argument of `find_by_price`: a native number or a numeric
string (spec section 4.1). -/
inductive PriceArg where
  | num (q : ℚ)
  | str (s : String)

/-- Modelled from the spec: `service/models.py` is missing from the sources.
`find_by_price(price)`: "exact match; accepts the value as a native number or
as a numeric string (... the model coerces it before comparison)" (spec
section 4.1).  A string that does not coerce matches nothing. -/
def Product.find_by_price (db : DB) (arg : PriceArg) : List Product :=
  match arg with
  | .num q => db.rows.filter (fun r => r.price = q)
  | .str s =>
      match parseDecimal s with
      | some q => db.rows.filter (fun r => r.price = q)
      | none => []

/-- The outcome of dispatching an HTTP request to a route handler: either a
response the handler built (status code, body, optional `Location` header),
or an exception that escaped the handler uncaught. -/
inductive HResp where
  | resp (code : Nat) (body : JVal) (location : Option String)
  | raised (err : String)

/-- Request headers, as name/value pairs. -/
abbrev Headers := List (String × String)

/-- Header lookup (Python `request.headers[name]`, `none` when absent). -/
def headerLookup (hs : Headers) (key : String) : Option String :=
  (List.find? (fun kv => kv.1 = key) hs).map (·.2)

/-- The 415 body produced by `abort(415, "Content-Type must be ...")` in
`check_content_type` (`routes.py` lines 53-56 and 62-65). -/
def unsupportedMediaType (content_type : String) : HResp :=
  .resp 415 (.jstr ("Content-Type must be " ++ content_type)) none

/-- `check_content_type` (`routes.py` lines 49-65): aborts with 415 when the
`Content-Type` header is absent, returns normally when it equals the expected
type, and aborts with 415 on any other value.  `none` models the normal
return; `some r` models the abort with response `r`. -/
def check_content_type (hs : Headers) (content_type : String) : Option HResp :=
  match headerLookup hs "Content-Type" with
  | none => some (unsupportedMediaType content_type)
  | some v =>
      if v = content_type then none
      else some (unsupportedMediaType content_type)

/-- The `Location` header built by `url_for("get_products", product_id=...)`
(`routes.py` line 89). -/
def locationUrl (pid : Nat) : String :=
  "/products/" ++ toString pid

/-- `create_products` (`routes.py` lines 71-90): checks the content type,
deserializes the body into a fresh product, creates it, and returns 201 with
the serialized product and a `Location` header.  The route has no handler
for the validation error raised by `deserialize`, so that error escapes as
`raised`. -/
def create_products (db : DB) (hs : Headers) (body : JVal) : DB × HResp :=
  match check_content_type hs "application/json" with
  | some r => (db, r)
  | none =>
      match Product.deserialize Product.new body with
      | .error e => (db, .raised e)
      | .ok p =>
          let (db', p') := Product.create db p
          (db', .resp 201 (Product.serialize p') (some (locationUrl db.nextId)))

/-- Category query-parameter handling of `list_products` (`routes.py` lines
111-114): `try: category = Category(int(category))` and, on `ValueError`
(from `int()` or from the `Category` value lookup), `category =
Category[category.upper()]`.  A failing name lookup raises `KeyError`, which
the `except ValueError` clause does not catch, modelled as `none`. -/
def categoryParse (s : String) : Option Category :=
  match pyInt? s with
  | some n =>
      match categoryFromOrdinal n with
      | some c => some c
      | none => categoryFromName (pyUpper s)
  | none => categoryFromName (pyUpper s)

/-- Availability query-parameter handling of `list_products` (`routes.py`
line 118): `available in [True, 'True', 'true']` where `available` is the
query-parameter string (a string is never the Python boolean `True`). -/
def availableParse (s : String) : Bool :=
  s == "True" || s == "true"

/-- `list_products` (`routes.py` lines 97-130): filters by `name`, then
`category`, then `available`, else returns everything; responds 200 with the
list of serialized products.  An unresolvable category parameter raises an
uncaught `KeyError`. -/
def list_products (db : DB) (name category available : Option String) : HResp :=
  match name with
  | some n => .resp 200 (.jarr ((Product.find_by_name db n).map Product.serialize)) none
  | none =>
      match category with
      | some c =>
          match categoryParse c with
          | some k =>
              .resp 200 (.jarr ((Product.find_by_category db k).map Product.serialize)) none
          | none => .raised ("KeyError: " ++ pyUpper c)
      | none =>
          match available with
          | some a =>
              .resp 200 (.jarr ((Product.find_by_availability db (availableParse a)).map
                Product.serialize)) none
          | none => .resp 200 (.jarr (db.rows.map Product.serialize)) none

/-- The 404 body `{"message": "Product with id {id} not found."}` returned by
the read, update and delete handlers. -/
def notFoundBody (pid : Nat) : JVal :=
  .jobj [("message", .jstr ("Product with id " ++ toString pid ++ " not found."))]

/-- `get_products` (`routes.py` lines 137-154): 404 with a message when the
id resolves to no product, else 200 with the serialized product. -/
def get_products (db : DB) (pid : Nat) : HResp :=
  match Product.find db pid with
  | none => .resp 404 (notFoundBody pid) none
  | some p => .resp 200 (Product.serialize p) none

/-- `update_products` (`routes.py` lines 161-184): checks the content type,
then looks up the id (404 when unknown), deserializes the body into the
found instance catching the validation error locally (400 with the message),
persists via `update()` and returns 200 with the serialized product. -/
def update_products (db : DB) (hs : Headers) (pid : Nat) (body : JVal) : DB × HResp :=
  match check_content_type hs "application/json" with
  | some r => (db, r)
  | none =>
      match Product.find db pid with
      | none => (db, .resp 404 (notFoundBody pid) none)
      | some p =>
          match Product.deserialize p body with
          | .error e => (db, .resp 400 (.jobj [("message", .jstr e)]) none)
          | .ok p' =>
              match Product.update db p' with
              | (db', .ok ()) => (db', .resp 200 (Product.serialize p') none)
              | (db', .error e) => (db', .raised e)

/-- `delete_products` (`routes.py` lines 191-207): 404 with a message when
the id resolves to no product, else deletes it and returns 204 with an empty
body. -/
def delete_products (db : DB) (pid : Nat) : DB × HResp :=
  match Product.find db pid with
  | none => (db, .resp 404 (notFoundBody pid) none)
  | some p => (Product.delete db p, .resp 204 (.jstr "") none)

/-- Modelled from the spec: the global error translator lives outside the
provided sources (`service/common/error_handlers.py` is missing).  Spec
section 4.2: "a deserialization failure surfaces as a 400 with a message
(handled by a global error translator outside this core, since the route
itself does not catch the validation error)".  It maps an escaped validation
error to a 400 response carrying the error's message and leaves ordinary
responses untouched. -/
def translateErrors : HResp → HResp
  | .raised e => .resp 400 (.jobj [("message", .jstr e)]) none
  | r => r

/-! Concrete sample data used by witnesses and counterexamples, matching the
end-to-end scenario of spec section 8 (the Fedora product). -/

/-- The spec's sample product, already persisted with id 1. -/
def sampleProduct : Product :=
  { id := some 1, name := "Fedora", description := "A red hat",
    price := 25 / 2, available := true, category := .CLOTHS }

/-- A one-row table holding `sampleProduct`. -/
def sampleDB : DB := { rows := [sampleProduct], nextId := 2 }

/-- Headers of a well-formed JSON request. -/
def jsonHeaders : Headers := [("Content-Type", "application/json")]

/-- Headers carrying a JSON media type with a charset parameter. -/
def charsetHeaders : Headers := [("Content-Type", "application/json; charset=utf-8")]

/-- A request body lacking the required `name` key
(`test_create_product_with_no_name`). -/
def bodyMissingName : JVal :=
  .jobj [("description", .jstr "A red hat"), ("price", .jnum 12),
         ("available", .jbool true), ("category", .jstr "CLOTHS")]

/-- A request body whose `available` is bound to the non-boolean `[]`. -/
def bodyBadAvailable : JVal :=
  .jobj [("name", .jstr "Fedora"), ("description", .jstr "A red hat"),
         ("price", .jnum 12), ("available", .jarr []),
         ("category", .jstr "CLOTHS")]

/-- A request body whose `category` is the unknown enum name `SPORTS`. -/
def bodyBadCategory : JVal :=
  .jobj [("name", .jstr "Fedora"), ("description", .jstr "A red hat"),
         ("price", .jnum 12), ("available", .jbool true),
         ("category", .jstr "SPORTS")]

/-- A request body whose `price` is bound to `{}`. -/
def bodyBadPrice : JVal :=
  .jobj [("name", .jstr "Fedora"), ("description", .jstr "A red hat"),
         ("price", .jobj []), ("available", .jbool true),
         ("category", .jstr "CLOTHS")]

/-! ## Claim theorems -/

/-- Claim C2: for every Product whose id is `none`, calling `update()` raises
a validation error and performs no persistence — the stored table is
unchanged by the failed call. -/
theorem update_without_id_fails (db : DB) (p : Product) (h : p.id = none) :
    Product.update db p = (db, Except.error updateNoIdMsg) := by
  unfold Product.update
  rw [h]

/-- Witness for C2: a concrete unpersisted product makes `update()` fail and
leaves the concrete table untouched. -/
theorem update_without_id_fails_witness :
    Product.new.id = none ∧
    Product.update sampleDB Product.new = (sampleDB, Except.error updateNoIdMsg) :=
  ⟨rfl, update_without_id_fails sampleDB Product.new rfl⟩

/-- Claim C3: for every valid product `p` (and any receiving instance `p₀`),
`deserialize(serialize(p))` succeeds and yields a product whose semantic
field values — name, description, available, category (by identity) and
price (by numeric value) — equal those of `p`. -/
theorem deserialize_serialize_roundtrip (p p₀ : Product) :
    ∃ p', Product.deserialize p₀ (Product.serialize p) = Except.ok p' ∧
      p'.name = p.name ∧ p'.description = p.description ∧
      p'.available = p.available ∧ p'.category = p.category ∧
      p'.price = p.price := by
  cases p with
  | mk id name description price available category =>
      cases category <;>
        exact ⟨_, rfl, rfl, rfl, rfl, rfl, rfl⟩

/-- Claim C4: `deserialize` raises a validation error, rather than silently
coercing, on a non-boolean `available` (here `[]`), an unknown enum name for
`category` (here `"SPORTS"`), and a non-numeric `price` (here `{}`) — with a
distinct message per failure mode. -/
theorem deserialize_rejects_invalid_fields :
    Product.deserialize Product.new bodyBadAvailable =
      Except.error "Invalid type for boolean [available]" ∧
    Product.deserialize Product.new bodyBadCategory =
      Except.error "Invalid attribute: SPORTS" ∧
    Product.deserialize Product.new bodyBadPrice =
      Except.error "Invalid type for numeric [price]" ∧
    ("Invalid type for boolean [available]" ≠ "Invalid attribute: SPORTS") ∧
    ("Invalid type for boolean [available]" ≠ "Invalid type for numeric [price]") ∧
    ("Invalid attribute: SPORTS" ≠ "Invalid type for numeric [price]") :=
  ⟨rfl, rfl, rfl, by decide, by decide, by decide⟩

/-- Claim C5: for every stored set of products, `find_by_category(c)` returns
exactly the subset whose category equals `c`, and the analogous exact-subset
properties hold for `find_by_name`, `find_by_availability` and
`find_by_price` — including when the price argument is passed as a numeric
string instead of a native number. -/
theorem find_by_filters_exact (db : DB) (c : Category) (n : String) (b : Bool)
    (q : ℚ) (s : String) (hq : parseDecimal s = some q) :
    (∀ p, p ∈ Product.find_by_category db c ↔ p ∈ db.rows ∧ p.category = c) ∧
    (∀ p, p ∈ Product.find_by_name db n ↔ p ∈ db.rows ∧ p.name = n) ∧
    (∀ p, p ∈ Product.find_by_availability db b ↔ p ∈ db.rows ∧ p.available = b) ∧
    (∀ p, p ∈ Product.find_by_price db (.num q) ↔ p ∈ db.rows ∧ p.price = q) ∧
    (∀ p, p ∈ Product.find_by_price db (.str s) ↔ p ∈ db.rows ∧ p.price = q) := by
  refine ⟨?_, ?_, ?_, ?_, ?_⟩ <;> intro p <;>
    simp [Product.find_by_category, Product.find_by_name,
      Product.find_by_availability, Product.find_by_price, hq,
      List.mem_filter]

/-- Witness for C5: the string `"12.50"` coerces to the sample product's
price, and the string-price filter admits the sample product from the sample
table. -/
theorem find_by_filters_exact_witness :
    parseDecimal "12.50" = some (25 / 2) ∧
    (sampleProduct ∈ Product.find_by_price sampleDB (.str "12.50") ↔
      sampleProduct ∈ sampleDB.rows ∧ sampleProduct.price = 25 / 2) := by
  have hq : parseDecimal "12.50" = some (25 / 2 : ℚ) := by
    have h : parseDecimal "12.50" =
        some ((((12 : ℕ) : ℚ)) + (((50 : ℕ) : ℚ)) / ((10 : ℚ) ^ (2 : ℕ))) := rfl
    rw [h]
    norm_num
  exact ⟨hq,
    (find_by_filters_exact sampleDB .CLOTHS "Fedora" true (25 / 2) "12.50"
      hq).2.2.2.2 sampleProduct⟩

/-- Claim C7: a GET /products request with an `available` query parameter
filters for available products exactly when the parameter is the string
`"true"` or `"True"`; any other value filters for unavailable products. -/
theorem list_products_availability_filter (db : DB) (a : String) :
    list_products db none none (some a) =
      .resp 200 (.jarr ((Product.find_by_availability db (availableParse a)).map
        Product.serialize)) none ∧
    (availableParse a = true ↔ a = "True" ∨ a = "true") := by
  constructor
  · rfl
  · simp [availableParse]

/-- Counterexample to claim C6: the category parameter `"cloths"` is neither
an integer ordinal (`int("cloths")` fails) nor the name of any enum member
(the names are uppercase), yet `list_products` accepts it and returns 200 —
so matching does not accept exactly the two claimed forms. -/
theorem category_param_accepts_lowercase :
    list_products sampleDB none (some "cloths") none =
      .resp 200 (.jarr [Product.serialize sampleProduct]) none ∧
    pyInt? "cloths" = none ∧
    categoryFromName "cloths" = none := by
  exact ⟨rfl, rfl, rfl⟩

/-- Claim C6 as amended: the category parameter is matched case-insensitively
through upper-casing — `categoryParse` accepts a string exactly when it is
the integer ordinal of a member (ordinals take precedence), or when its
upper-cased form is a member's name (so any case variant of a name is
accepted). -/
theorem categoryParse_characterization (s : String) (k : Category) :
    categoryParse s = some k ↔
      ((∃ n, pyInt? s = some n ∧ categoryFromOrdinal n = some k) ∨
       ((pyInt? s = none ∨ ∃ n, pyInt? s = some n ∧ categoryFromOrdinal n = none) ∧
        categoryFromName (pyUpper s) = some k)) := by
  cases hpi : pyInt? s with
  | none => simp [categoryParse, hpi]
  | some n =>
      cases hco : categoryFromOrdinal n with
      | none => simp [categoryParse, hpi, hco]
      | some c => simp [categoryParse, hpi, hco]

/-- Claim C10: a GET /products request whose category parameter is neither
parseable as an integer nor, after upper-casing, the name of a Category
member makes the handler raise an uncaught `KeyError` (the `except
ValueError` clause does not catch it), so no 200, 400 or 404 response is
produced by this core. -/
theorem list_products_unknown_category_raises (db : DB) (s : String)
    (h1 : pyInt? s = none) (h2 : categoryFromName (pyUpper s) = none) :
    list_products db none (some s) none = .raised ("KeyError: " ++ pyUpper s) := by
  simp [list_products, categoryParse, h1, h2]

/-- Witness for C10: the parameter `"sports"` is not an integer and
upper-cases to `"SPORTS"`, which is not a member name, so the handler
raises. -/
theorem list_products_unknown_category_raises_witness :
    pyInt? "sports" = none ∧
    categoryFromName (pyUpper "sports") = none ∧
    list_products sampleDB none (some "sports") none =
      .raised ("KeyError: " ++ pyUpper "sports") :=
  ⟨rfl, rfl, list_products_unknown_category_raises sampleDB "sports" rfl rfl⟩

/-- Claim C8: DELETE /products/id returns 404 when the id matches no stored
product, leaving the table unchanged; otherwise it deletes the product and
returns 204 with an empty body, after which `find(id)` returns the not-found
sentinel and a subsequent GET on the id returns 404. -/
theorem delete_products_spec (db : DB) (pid : Nat) :
    (Product.find db pid = none →
      delete_products db pid = (db, .resp 404 (notFoundBody pid) none)) ∧
    (∀ p, Product.find db pid = some p →
      (delete_products db pid).2 = .resp 204 (.jstr "") none ∧
      Product.find (delete_products db pid).1 pid = none ∧
      get_products (delete_products db pid).1 pid = .resp 404 (notFoundBody pid) none) := by
  constructor
  · intro h
    unfold delete_products
    rw [h]
  · intro p hp
    have hfind : Product.find (delete_products db pid).1 pid = none := by
      have hid : p.id = some pid := by
        have := List.find?_some hp
        simpa using this
      unfold delete_products
      rw [hp]
      unfold Product.find Product.delete
      simp only [List.find?_eq_none, List.mem_filter, decide_eq_true_eq]
      intro r hr
      intro hrid
      exact absurd (hrid.trans hid.symm) (by simpa using hr.2)
    refine ⟨?_, hfind, ?_⟩
    · unfold delete_products
      rw [hp]
    · unfold get_products
      rw [hfind]

/-- Witness for C8: deleting the sample product from the sample table yields
204, after which `find` returns the sentinel and GET returns 404. -/
theorem delete_products_spec_witness :
    (delete_products sampleDB 1).2 = .resp 204 (.jstr "") none ∧
    Product.find (delete_products sampleDB 1).1 1 = none ∧
    get_products (delete_products sampleDB 1).1 1 = .resp 404 (notFoundBody 1) none :=
  (delete_products_spec sampleDB 1).2 sampleProduct rfl

/-- Claim C9: `check_content_type` accepts a request exactly when its
`Content-Type` header is present and equal, as a full string, to
`application/json`; a missing header or any other value (including variants
with parameters) is rejected with 415, and in POST and PUT this rejection
happens regardless of the request body or the product id — the check runs
before either is examined. -/
theorem check_content_type_spec (hs : Headers) (db : DB) (pid : Nat) (body : JVal) :
    (unsupportedMediaType "application/json" =
      .resp 415 (.jstr "Content-Type must be application/json") none) ∧
    (check_content_type hs "application/json" = none ↔
      headerLookup hs "Content-Type" = some "application/json") ∧
    (headerLookup hs "Content-Type" ≠ some "application/json" →
      create_products db hs body = (db, unsupportedMediaType "application/json") ∧
      update_products db hs pid body = (db, unsupportedMediaType "application/json")) := by
  refine ⟨rfl, ?_, ?_⟩
  · cases hv : headerLookup hs "Content-Type" with
    | none => simp [check_content_type, hv]
    | some v =>
        by_cases h : v = "application/json"
        · subst h
          simp [check_content_type, hv]
        · simp [check_content_type, hv, h]
  · intro hneq
    have hc : check_content_type hs "application/json" =
        some (unsupportedMediaType "application/json") := by
      cases hv : headerLookup hs "Content-Type" with
      | none => simp [check_content_type, hv]
      | some v =>
          have hv' : v ≠ "application/json" := by
            intro h
            exact hneq (by rw [hv, h])
          simp [check_content_type, hv, hv']
    constructor
    · unfold create_products
      rw [hc]
    · unfold update_products
      rw [hc]

/-- Witness for C9: a `Content-Type` of `application/json; charset=utf-8` is
not the exact string `application/json`, so a POST with it returns 415
whatever the body. -/
theorem check_content_type_spec_witness :
    headerLookup charsetHeaders "Content-Type" ≠ some "application/json" ∧
    create_products sampleDB charsetHeaders (.jobj []) =
      (sampleDB, unsupportedMediaType "application/json") ∧
    update_products sampleDB charsetHeaders 1 (.jobj []) =
      (sampleDB, unsupportedMediaType "application/json") := by
  have hneq : headerLookup charsetHeaders "Content-Type" ≠ some "application/json" := by
    decide
  exact ⟨hneq,
    (check_content_type_spec charsetHeaders sampleDB 1 (.jobj [])).2.2 hneq⟩

/-- Claim C1: a POST /products request with JSON content type whose body
fails deserialization makes the create handler raise the validation error
uncaught (the route has no local catch), and the global error translator
outside the route turns that escaped error into a 400 response carrying a
message. -/
theorem create_products_validation_error (db : DB) (hs : Headers) (body : JVal)
    (e : String)
    (hct : check_content_type hs "application/json" = none)
    (hde : Product.deserialize Product.new body = Except.error e) :
    create_products db hs body = (db, .raised e) ∧
    translateErrors (create_products db hs body).2 =
      .resp 400 (.jobj [("message", .jstr e)]) none := by
  have h : create_products db hs body = (db, .raised e) := by
    unfold create_products
    rw [hct, hde]
  exact ⟨h, by rw [h]; rfl⟩

/-- Witness for C1: a body missing the required `name` key, posted with JSON
content type, escapes the handler as a validation error and is translated to
a 400 with a message. -/
theorem create_products_validation_error_witness :
    check_content_type jsonHeaders "application/json" = none ∧
    Product.deserialize Product.new bodyMissingName =
      Except.error "Invalid product: missing name" ∧
    create_products sampleDB jsonHeaders bodyMissingName =
      (sampleDB, .raised "Invalid product: missing name") ∧
    translateErrors (create_products sampleDB jsonHeaders bodyMissingName).2 =
      .resp 400 (.jobj [("message", .jstr "Invalid product: missing name")]) none :=
  ⟨rfl, rfl,
   create_products_validation_error sampleDB jsonHeaders bodyMissingName
     "Invalid product: missing name" rfl rfl⟩

end ProductService
